import Mathlib

/-!
Verification of the madrid open-data scraper (src/scraper/data-extraction.py).

The scraper walks a two-level HTML listing (year entries containing month
entries), extracts one ZIP link per month, stops early at a previously
recorded (year, month) checkpoint, and merges the newly found records with
the previously stored ones.

This file shallowly embeds the HTML document as a rose tree of elements,
the BeautifulSoup query operations the source calls, and the control flow
of get_last_data and get_data as pure Lean functions, then proves the
specified properties about them.
-/

/-- An HTML element as seen by the scraper: tag name, the list of CSS classes
from its class attribute, its other attributes, the stripped text content
that get_text with strip set returns for it, and its child elements. -/
inductive Elem : Type where
  | mk : String → List String → List (String × String) → String → List Elem → Elem

def Elem.tagName : Elem → String
  | .mk t _ _ _ _ => t

def Elem.classes : Elem → List String
  | .mk _ c _ _ _ => c

def Elem.attrs : Elem → List (String × String)
  | .mk _ _ a _ _ => a

/-- Model of tag.get_text with strip set: the stripped text content. -/
def Elem.get_text : Elem → String
  | .mk _ _ _ s _ => s

def Elem.children : Elem → List Elem
  | .mk _ _ _ _ cs => cs

mutual

/-- All descendants of an element in document (pre-)order, the order
BeautifulSoup uses for recursive find and find_all. -/
def descendants : Elem → List Elem
  | .mk _ _ _ _ cs => descendantsList cs

def descendantsList : List Elem → List Elem
  | [] => []
  | c :: cs => c :: (descendants c ++ descendantsList cs)

end

/-- BeautifulSoup class matching for a query dictionary entry for class:
a single-word query matches when it is one of the element classes, and any
query matches when it equals the full space-joined class attribute value. -/
def classMatch (q : String) (cs : List String) : Bool :=
  cs.contains q || q == String.intercalate " " cs

/-- Whether an element matches a find query by tag name and class string. -/
def matchesSel (tagQ clsQ : String) (e : Elem) : Bool :=
  e.tagName == tagQ && classMatch clsQ e.classes

/-- Model of tag.find_all with a tag name and a class filter (recursive,
the default): all matching descendants in document order. -/
def Elem.find_all (e : Elem) (tagQ clsQ : String) : List Elem :=
  (descendants e).filter (matchesSel tagQ clsQ)

/-- Model of tag.find_all with recursive set to False: matching direct
children only. -/
def Elem.find_all_direct (e : Elem) (tagQ clsQ : String) : List Elem :=
  e.children.filter (matchesSel tagQ clsQ)

/-- Model of tag.find with a tag name and class filter: the first matching
descendant in document order, if any. -/
def Elem.find (e : Elem) (tagQ clsQ : String) : Option Elem :=
  (e.find_all tagQ clsQ).head?

/-- Model of tag.get on an attribute name: the attribute value if present. -/
def Elem.get (e : Elem) (key : String) : Option String :=
  e.attrs.lookup key

/-- One extracted discovery record, as appended at line 142 of the source.
Equality is structural on all three fields, matching Python dict equality
used by the merge step. -/
structure Record where
  year : String
  month : String
  link : String
deriving DecidableEq, Repr

def BASE_URL : String := "https://datos.madrid.es"

/-- Whether the string s starts with the string p. -/
def strStartsWith (s p : String) : Bool :=
  p.data.isPrefixOf s.data

/-- Model of urllib.parse.urljoin restricted to the href shapes this scraper
meets: an already-absolute http or https URL is returned unchanged, and a
host-relative path is appended to the base origin. -/
def urljoin (base url : String) : String :=
  if strStartsWith url "http://" || strStartsWith url "https://" then url
  else if strStartsWith url "/" then base ++ url
  else base ++ "/" ++ url

/-- Lines 119 to 138 of get_data: from a month element, descend to the
nested link container (an li of class asociada-item), then to the ZIP
anchor, then read its href attribute; any absence yields none, which the
source logs as a warning and skips. -/
def monthHref (m : Elem) : Option String :=
  match m.find "li" "asociada-item" with
  | none => none
  | some links_li =>
    match links_li.find "a" "asociada-link ico-zip" with
    | none => none
    | some zip_link => zip_link.get "href"

/-- The inner month loop of get_data (lines 101 to 142) over an already
collected candidate list, returning the records appended by this year in
order together with the stop_processing flag. A candidate without a title
element is skipped; when both checkpoint components are non-empty and both
match, the loop breaks with the flag set before extracting any link. -/
def processMonths (year_value last_year last_month : String) :
    List Elem → List Record × Bool
  | [] => ([], false)
  | m :: rest =>
    match m.find "p" "info-title" with
    | none => processMonths year_value last_year last_month rest
    | some month_text =>
      let month_value := month_text.get_text
      if last_year != "" && last_month != "" && year_value == last_year
          && month_value == last_month then
        ([], true)
      else
        match monthHref m with
        | none => processMonths year_value last_year last_month rest
        | some href =>
          let r : Record :=
            { year := year_value, month := month_value
              link := urljoin BASE_URL href }
          let p := processMonths year_value last_year last_month rest
          (r :: p.1, p.2)

/-- The outer year loop of get_data (lines 88 to 145): a year without a
title element or with no month candidates raises, otherwise its months are
processed; a set stop flag breaks out of the year loop. An error discards
all records collected so far, as the raised exception skips the save. -/
def processYears (last_year last_month : String) :
    List Elem → Except String (List Record)
  | [] => Except.ok []
  | year :: rest =>
    match year.find "p" "info-title" with
    | none => Except.error "Year title not found."
    | some year_text =>
      let year_value := year_text.get_text
      let months := year.find_all "li" "asociada-item"
      if months.isEmpty then
        Except.error ("No months found for year " ++ year_value ++ ".")
      else
        let p := processMonths year_value last_year last_month months
        if p.2 then Except.ok p.1
        else
          match processYears last_year last_month rest with
          | Except.error e => Except.error e
          | Except.ok more => Except.ok (p.1 ++ more)

/-- The link-collection phase of get_data (lines 74 to 145) on an already
fetched and parsed document: locate the listing container (recursive find
from the document root), enumerate year entries as its matching direct
children, and run the year loop. Raised ValueErrors become error results. -/
def get_data_links (soup : Elem) (last_year last_month : String) :
    Except String (List Record) :=
  match soup.find "ul" "asociada-list trancateList docs" with
  | none => Except.error "Main document list container not found."
  | some main =>
    let years := main.find_all_direct "li" "asociada-item"
    if years.isEmpty then Except.error "No year elements found."
    else processYears last_year last_month years

/-- Line 153 of get_data: new links first, then every previously stored
item that does not occur among the new links, in stored order. -/
def merge_links (links existing_links : List Record) : List Record :=
  links ++ existing_links.filter (fun item => !links.contains item)

/-- The whole of get_data on a parsed document: the walk, then the save
step (lines 147 to 157). The store argument is the prior contents of the
record file (none when the file does not exist). An ok result is the
sequence written to the file; an error result models the raised exception,
which propagates before the write is reached, leaving the file untouched. -/
def get_data (soup : Elem) (last_year last_month : String)
    (store : Option (List Record)) : Except String (List Record) :=
  match get_data_links soup last_year last_month with
  | Except.error e => Except.error e
  | Except.ok links =>
    match store with
    | some existing_links => Except.ok (merge_links links existing_links)
    | none => Except.ok links

/-- A JSON value, the result of json.load on the record file. -/
inductive JValue : Type where
  | jnull : JValue
  | jbool : Bool → JValue
  | jnum : Int → JValue
  | jstr : String → JValue
  | jarr : List JValue → JValue
  | jobj : List (String × JValue) → JValue

/-- Python truthiness of a JSON value, as tested by the if not data check. -/
def JValue.truthy : JValue → Bool
  | .jnull => false
  | .jbool b => b
  | .jnum n => n != 0
  | .jstr s => s != ""
  | .jarr xs => !xs.isEmpty
  | .jobj fs => !fs.isEmpty

/-- Model of dict.get with an empty-string default, as in lines 40 to 41. -/
def jget (fields : List (String × JValue)) (key : String) : JValue :=
  match fields.lookup key with
  | some v => v
  | none => .jstr ""

/-- get_last_data (lines 20 to 43) on the state of the record file:
none models a missing file (logged, empty checkpoint returned); some none
models a file that exists but that json.load cannot parse, where the
JSONDecodeError propagates uncaught; some (some v) models a file parsing
to the value v. Falsy parsed data yields the empty checkpoint; otherwise
the first element of the array is read with per-field defaults. A truthy
non-array value, or a first element that is not an object, raises. -/
def get_last_data (file : Option (Option JValue)) :
    Except String (JValue × JValue) :=
  match file with
  | none => Except.ok (.jstr "", .jstr "")
  | some none => Except.error "json.load: malformed JSON"
  | some (some data) =>
    if !data.truthy then Except.ok (.jstr "", .jstr "")
    else
      match data with
      | .jarr (first :: _) =>
        match first with
        | .jobj fields => Except.ok (jget fields "year", jget fields "month")
        | _ => Except.error "AttributeError: first element has no get"
      | .jobj _ => Except.error "KeyError: 0"
      | .jstr _ => Except.error "AttributeError: str element has no get"
      | _ => Except.error "TypeError: data is not subscriptable"

/-! Concrete document fixtures used by the concrete theorems. They follow
the page shape the source expects: a listing container whose direct
children are year items, each year item holding a title paragraph and a
wrapper list of month items, each month item holding a title paragraph and
a nested link container with the ZIP anchor. -/

/-- A title paragraph carrying a display label. -/
def pTitle (label : String) : Elem := .mk "p" ["info-title"] [] label []

/-- The ZIP anchor for a month. -/
def zipAnchor (href : String) : Elem :=
  .mk "a" ["asociada-link", "ico-zip"] [("href", href)] "" []

/-- The nested link container inside a month item: an li that matches the
same structural signature as a month item but carries no title. -/
def linkLi (href : String) : Elem :=
  .mk "li" ["asociada-item"] [] "" [zipAnchor href]

/-- A month item: title plus a wrapper list holding the link container. -/
def monthLi (label href : String) : Elem :=
  .mk "li" ["asociada-item"] [] label
    [pTitle label, .mk "ul" [] [] "" [linkLi href]]

/-- A year item: title plus a wrapper list holding the given month items. -/
def yearLi (label : String) (ms : List Elem) : Elem :=
  .mk "li" ["asociada-item"] [] label
    [pTitle label, .mk "ul" [] [] "" ms]

/-- The listing container with the given year items as direct children. -/
def mainUl (years : List Elem) : Elem :=
  .mk "ul" ["asociada-list", "trancateList", "docs"] [] "" years

/-- A document root holding the given top-level elements. -/
def docRoot (tops : List Elem) : Elem := .mk "[document]" [] [] "" tops

/-- The early-stop fixture: years 2025 and 2024, months 03, 02, 01 under
2025, all months carrying extractable ZIP links. -/
def doc1 : Elem := docRoot [mainUl
  [yearLi "2025"
    [monthLi "03" "/egob/03.zip", monthLi "02" "/egob/02.zip",
     monthLi "01" "/egob/01.zip"],
   yearLi "2024" [monthLi "12" "/egob/12.zip"]]]

/-- The wrapped-nesting fixture: under year 2025 the month item sits two
wrapper levels below the year item, while a fully valid year 2024 item sits
one wrapper level below the listing container instead of being its direct
child. -/
def doc8 : Elem := docRoot [mainUl
  [Elem.mk "li" ["asociada-item"] [] "2025"
    [pTitle "2025",
     Elem.mk "div" [] [] "" [Elem.mk "ul" [] [] "" [monthLi "03" "/egob/03.zip"]]],
   Elem.mk "div" [] [] "" [yearLi "2024" [monthLi "12" "/egob/12.zip"]]]]

/-- A year item carrying no title paragraph. -/
def yearNoTitle : Elem := Elem.mk "li" ["asociada-item"] [] "" []

/-- A year item with a title but no month candidates underneath. -/
def yearNoMonths : Elem := Elem.mk "li" ["asociada-item"] [] "2023" [pTitle "2023"]

/-- A month item with a title but no nested link container. -/
def monthNoContainer : Elem :=
  Elem.mk "li" ["asociada-item"] [] "07" [pTitle "07"]

/-- A month item whose link container holds no ZIP anchor. -/
def monthNoAnchor : Elem :=
  Elem.mk "li" ["asociada-item"] [] "07"
    [pTitle "07", Elem.mk "ul" [] [] "" [Elem.mk "li" ["asociada-item"] [] "" []]]

/-- A month item whose ZIP anchor carries no href attribute. -/
def monthNoHref : Elem :=
  Elem.mk "li" ["asociada-item"] [] "07"
    [pTitle "07", Elem.mk "ul" [] [] ""
      [Elem.mk "li" ["asociada-item"] []  ""
        [Elem.mk "a" ["asociada-link", "ico-zip"] [] "" []]]]

/-- A document whose second year entry has no title, while the first year
contains the checkpoint entry: the early stop fires before the defective
year is ever examined. -/
def docShadowedDefect : Elem := docRoot [mainUl
  [yearLi "2025" [monthLi "03" "/egob/03.zip", monthLi "02" "/egob/02.zip"],
   yearNoTitle]]

/-- A document with no listing container at all. -/
def docNoContainer : Elem := docRoot [Elem.mk "div" [] [] "" []]

/-- A document whose listing container has no matching year children. -/
def docNoYears : Elem := docRoot [mainUl [Elem.mk "div" [] [] "" []]]

/-- Concrete records used by the merge theorems. -/
def recA : Record :=
  { year := "2025", month := "05", link := "https://datos.madrid.es/a.zip" }

def recB : Record :=
  { year := "2025", month := "04", link := "https://datos.madrid.es/b.zip" }

def recC : Record :=
  { year := "2025", month := "03", link := "https://datos.madrid.es/c.zip" }

/-! Unfolding equations for the two loops, split by the case analysis the
source performs on each entry. These are shared auxiliary lemmas. -/

theorem processMonths_nil (yv ly lm : String) :
    processMonths yv ly lm [] = ([], false) := rfl

theorem processMonths_cons_no_title (yv ly lm : String) (m : Elem)
    (rest : List Elem) (h : m.find "p" "info-title" = none) :
    processMonths yv ly lm (m :: rest) = processMonths yv ly lm rest := by
  simp only [processMonths, h]

theorem processMonths_cons_stop (yv ly lm : String) (m : Elem)
    (rest : List Elem) (t : Elem) (h : m.find "p" "info-title" = some t)
    (hc : (ly != "" && lm != "" && yv == ly && t.get_text == lm) = true) :
    processMonths yv ly lm (m :: rest) = ([], true) := by
  simp only [processMonths, h, hc, if_true]

theorem processMonths_cons_skip (yv ly lm : String) (m : Elem)
    (rest : List Elem) (t : Elem) (h : m.find "p" "info-title" = some t)
    (hc : (ly != "" && lm != "" && yv == ly && t.get_text == lm) = false)
    (hl : monthHref m = none) :
    processMonths yv ly lm (m :: rest) = processMonths yv ly lm rest := by
  simp only [processMonths, h, hc, hl, Bool.false_eq_true, if_false]

theorem processMonths_cons_rec (yv ly lm : String) (m : Elem)
    (rest : List Elem) (t : Elem) (href : String)
    (h : m.find "p" "info-title" = some t)
    (hc : (ly != "" && lm != "" && yv == ly && t.get_text == lm) = false)
    (hl : monthHref m = some href) :
    processMonths yv ly lm (m :: rest) =
      (({ year := yv, month := t.get_text, link := urljoin BASE_URL href } : Record)
          :: (processMonths yv ly lm rest).1,
        (processMonths yv ly lm rest).2) := by
  simp only [processMonths, h, hc, hl, Bool.false_eq_true, if_false]

theorem processYears_nil (ly lm : String) :
    processYears ly lm [] = Except.ok [] := rfl

theorem processYears_cons_no_title (ly lm : String) (y : Elem)
    (rest : List Elem) (h : y.find "p" "info-title" = none) :
    processYears ly lm (y :: rest) = Except.error "Year title not found." := by
  simp only [processYears, h]

theorem processYears_cons_no_months (ly lm : String) (y : Elem)
    (rest : List Elem) (t : Elem) (h : y.find "p" "info-title" = some t)
    (hm : (y.find_all "li" "asociada-item").isEmpty = true) :
    processYears ly lm (y :: rest) =
      Except.error ("No months found for year " ++ t.get_text ++ ".") := by
  simp only [processYears, h, hm, if_true]

theorem processYears_cons_go (ly lm : String) (y : Elem)
    (rest : List Elem) (t : Elem) (h : y.find "p" "info-title" = some t)
    (hm : (y.find_all "li" "asociada-item").isEmpty = false) :
    processYears ly lm (y :: rest) =
      (let p := processMonths t.get_text ly lm (y.find_all "li" "asociada-item")
       if p.2 then Except.ok p.1
       else
         match processYears ly lm rest with
         | Except.error e => Except.error e
         | Except.ok more => Except.ok (p.1 ++ more)) := by
  simp only [processYears, h, hm, Bool.false_eq_true, if_false]

/-- With either checkpoint component empty, the stop condition of line 114
is false whatever the current labels are, by Python truthiness of the
strings. Shared auxiliary lemma. -/
theorem stopCond_false_of_empty (ly lm yv mv : String) (h : ly = "" ∨ lm = "") :
    (ly != "" && lm != "" && yv == ly && mv == lm) = false := by
  rcases h with h | h <;> subst h <;> simp

/-- With either checkpoint component empty, the month loop never sets the
stop flag. Shared auxiliary lemma. -/
theorem processMonths_flag_false (yv ly lm : String) (h : ly = "" ∨ lm = "") :
    ∀ ms : List Elem, (processMonths yv ly lm ms).2 = false := by
  intro ms
  induction ms with
  | nil => rfl
  | cons m rest ih =>
    cases hfind : m.find "p" "info-title" with
    | none => rw [processMonths_cons_no_title _ _ _ _ _ hfind]; exact ih
    | some t =>
      cases hl : monthHref m with
      | none =>
        rw [processMonths_cons_skip _ _ _ _ _ _ hfind
          (stopCond_false_of_empty _ _ _ _ h) hl]
        exact ih
      | some href =>
        rw [processMonths_cons_rec _ _ _ _ _ _ _ hfind
          (stopCond_false_of_empty _ _ _ _ h) hl]
        exact ih

/-- With either checkpoint component empty, the month loop behaves exactly
as with the empty checkpoint. Shared auxiliary lemma. -/
theorem processMonths_of_empty (yv ly lm : String) (h : ly = "" ∨ lm = "") :
    ∀ ms : List Elem, processMonths yv ly lm ms = processMonths yv "" "" ms := by
  intro ms
  induction ms with
  | nil => rfl
  | cons m rest ih =>
    cases hfind : m.find "p" "info-title" with
    | none =>
      rw [processMonths_cons_no_title _ _ _ _ _ hfind,
        processMonths_cons_no_title _ _ _ _ _ hfind, ih]
    | some t =>
      cases hl : monthHref m with
      | none =>
        rw [processMonths_cons_skip _ _ _ _ _ _ hfind
            (stopCond_false_of_empty _ _ _ _ h) hl,
          processMonths_cons_skip _ _ _ _ _ _ hfind
            (stopCond_false_of_empty _ _ _ _ (Or.inl rfl)) hl, ih]
      | some href =>
        rw [processMonths_cons_rec _ _ _ _ _ _ _ hfind
            (stopCond_false_of_empty _ _ _ _ h) hl,
          processMonths_cons_rec _ _ _ _ _ _ _ hfind
            (stopCond_false_of_empty _ _ _ _ (Or.inl rfl)) hl, ih]

/-- With either checkpoint component empty, the year loop behaves exactly
as with the empty checkpoint. Shared auxiliary lemma. -/
theorem processYears_of_empty (ly lm : String) (h : ly = "" ∨ lm = "") :
    ∀ ys : List Elem, processYears ly lm ys = processYears "" "" ys := by
  intro ys
  induction ys with
  | nil => rfl
  | cons y rest ih =>
    cases hfind : y.find "p" "info-title" with
    | none =>
      rw [processYears_cons_no_title _ _ _ _ hfind,
        processYears_cons_no_title _ _ _ _ hfind]
    | some t =>
      cases hm : (y.find_all "li" "asociada-item").isEmpty with
      | true =>
        rw [processYears_cons_no_months _ _ _ _ _ hfind hm,
          processYears_cons_no_months _ _ _ _ _ hfind hm]
      | false =>
        rw [processYears_cons_go _ _ _ _ _ hfind hm,
          processYears_cons_go _ _ _ _ _ hfind hm,
          processMonths_of_empty _ _ _ h, ih]

/-- C1: walking doc1 (years 2025 and 2024, months 03, 02, 01 under 2025)
with checkpoint (2025, 02) emits exactly the single record for 2025/03:
the matching 02 entry produces no record, month 01 is not processed, and
year 2024 is never descended into — even though the full scan of the same
document (second conjunct) shows all four entries carry extractable
records. -/
theorem early_stop_boundary :
    get_data_links doc1 "2025" "02" =
      Except.ok [{ year := "2025", month := "03",
                   link := "https://datos.madrid.es/egob/03.zip" }] ∧
    get_data_links doc1 "" "" =
      Except.ok
        [{ year := "2025", month := "03",
           link := "https://datos.madrid.es/egob/03.zip" },
         { year := "2025", month := "02",
           link := "https://datos.madrid.es/egob/02.zip" },
         { year := "2025", month := "01",
           link := "https://datos.madrid.es/egob/01.zip" },
         { year := "2024", month := "12",
           link := "https://datos.madrid.es/egob/12.zip" }] :=
  ⟨rfl, rfl⟩

/-- C2: whenever the walk returns a sequence of new records, the saved
sequence is the new records followed by exactly those stored records, in
their original relative order, that do not occur among the new records;
in particular merging new [A, B] into stored [B, C] saves [A, B, C]. -/
theorem merge_new_first_dedup (soup : Elem) (ly lm : String)
    (links existing : List Record)
    (h : get_data_links soup ly lm = Except.ok links) :
    get_data soup ly lm (some existing) =
      Except.ok (links ++ existing.filter (fun r => decide (r ∉ links))) ∧
    merge_links [recA, recB] [recB, recC] = [recA, recB, recC] := by
  constructor
  · unfold get_data
    rw [h]
    show Except.ok (merge_links links existing) = _
    unfold merge_links
    congr 2
    apply List.filter_congr
    intro a _
    simp
  · rfl

/-- C2 witness: merging the single new 2025/03 record found by the
checkpointed walk of doc1 into a stored pair saves new-first. -/
theorem merge_new_first_dedup_witness :
    get_data doc1 "2025" "02" (some [recB, recC]) =
      Except.ok
        ([{ year := "2025", month := "03",
            link := "https://datos.madrid.es/egob/03.zip" }] ++
          [recB, recC].filter (fun r => decide (r ∉
            [({ year := "2025", month := "03",
                link := "https://datos.madrid.es/egob/03.zip" } : Record)]))) :=
  (merge_new_first_dedup doc1 "2025" "02" _ [recB, recC] rfl).1

/-- C3 counterexample: a store file that exists but that json.load cannot
parse makes get_last_data raise (the JSONDecodeError is not caught), so a
malformed store does not return the empty checkpoint. -/
theorem malformed_store_raises :
    get_last_data (some none) = Except.error "json.load: malformed JSON" := rfl

/-- C3 amended: get_last_data returns the year and month fields of the
first stored record, and returns the empty checkpoint when the store file
is missing or parses to empty data; an unparsable store instead raises. -/
theorem checkpoint_load_semantics :
    (∀ fields rest,
      get_last_data (some (some (JValue.jarr (JValue.jobj fields :: rest)))) =
        Except.ok (jget fields "year", jget fields "month")) ∧
    get_last_data none = Except.ok (JValue.jstr "", JValue.jstr "") ∧
    get_last_data (some (some (JValue.jarr []))) =
      Except.ok (JValue.jstr "", JValue.jstr "") :=
  ⟨fun _ _ => rfl, rfl, rfl⟩

/-- C4: with the empty checkpoint, or with either checkpoint component
empty, the walk never stops early: it behaves exactly as the full scan and
the month loop never sets the stop flag. -/
theorem no_checkpoint_full_scan (soup : Elem) (ly lm : String)
    (h : ly = "" ∨ lm = "") :
    get_data_links soup ly lm = get_data_links soup "" "" ∧
    ∀ yv ms, (processMonths yv ly lm ms).2 = false := by
  constructor
  · unfold get_data_links
    cases soup.find "ul" "asociada-list trancateList docs" with
    | none => rfl
    | some mainEl =>
      dsimp only
      rw [processYears_of_empty _ _ h]
  · intro yv ms
    exact processMonths_flag_false yv ly lm h ms

/-- C4 witness: a checkpoint with an empty year component scans doc1 in
full, and the stop flag stays clear on the months of a concrete year. -/
theorem no_checkpoint_full_scan_witness :
    get_data_links doc1 "" "02" = get_data_links doc1 "" "" ∧
    (processMonths "2025" "" "02"
      ((yearLi "2025" [monthLi "03" "/egob/03.zip"]).find_all
        "li" "asociada-item")).2 = false :=
  ⟨(no_checkpoint_full_scan doc1 "" "02" (Or.inl rfl)).1,
   (no_checkpoint_full_scan doc1 "" "02" (Or.inl rfl)).2 "2025" _⟩

/-- With either checkpoint component empty, a year entry without a title or
without month candidates anywhere in the list makes the year loop raise.
Shared auxiliary lemma. -/
theorem processYears_defect_error (ly lm : String) (h : ly = "" ∨ lm = "") :
    ∀ ys : List Elem,
      (∃ y ∈ ys, y.find "p" "info-title" = none ∨
        (y.find_all "li" "asociada-item").isEmpty = true) →
      ∃ e, processYears ly lm ys = Except.error e := by
  intro ys
  induction ys with
  | nil =>
    intro hex
    rcases hex with ⟨y, hy, _⟩
    exact absurd hy (List.not_mem_nil y)
  | cons y0 rest ih =>
    intro hex
    cases hfind : y0.find "p" "info-title" with
    | none => exact ⟨_, processYears_cons_no_title _ _ _ _ hfind⟩
    | some t =>
      cases hm : (y0.find_all "li" "asociada-item").isEmpty with
      | true => exact ⟨_, processYears_cons_no_months _ _ _ _ _ hfind hm⟩
      | false =>
        have hex' : ∃ y ∈ rest, y.find "p" "info-title" = none ∨
            (y.find_all "li" "asociada-item").isEmpty = true := by
          rcases hex with ⟨y, hy, hdef⟩
          rcases List.mem_cons.mp hy with rfl | hy2
          · rcases hdef with hd | hd
            · rw [hfind] at hd
              exact absurd hd (Option.some_ne_none t)
            · rw [hm] at hd
              exact absurd hd (by simp)
          · exact ⟨y, hy2, hdef⟩
        rcases ih hex' with ⟨e, he⟩
        refine ⟨e, ?_⟩
        rw [processYears_cons_go _ _ _ _ _ hfind hm]
        simp only [processMonths_flag_false t.get_text ly lm h, he,
          Bool.false_eq_true, if_false]

/-- C5 amended: a document whose listing container is absent, or whose
container has no matching year children, makes get_data raise before any
file write, whatever the checkpoint and prior store; a year entry without
a title, or with a title but no month candidates, makes the year loop
raise when the walk reaches it — at the head of the list for any
checkpoint, and anywhere in the list when no early stop can fire (either
checkpoint component empty). A defective year shadowed by an earlier early
stop is never examined (see the counterexample). An error result models
the exception propagating before the save step, so the store is never
rewritten. -/
theorem structural_defects_fatal :
    (∀ soup ly lm store, soup.find "ul" "asociada-list trancateList docs" = none →
      get_data soup ly lm store =
        Except.error "Main document list container not found.") ∧
    (∀ soup mainEl ly lm store,
      soup.find "ul" "asociada-list trancateList docs" = some mainEl →
      mainEl.find_all_direct "li" "asociada-item" = [] →
      get_data soup ly lm store = Except.error "No year elements found.") ∧
    (∀ ly lm y rest, y.find "p" "info-title" = none →
      processYears ly lm (y :: rest) = Except.error "Year title not found.") ∧
    (∀ ly lm y rest t, y.find "p" "info-title" = some t →
      (y.find_all "li" "asociada-item").isEmpty = true →
      processYears ly lm (y :: rest) =
        Except.error ("No months found for year " ++ t.get_text ++ ".")) ∧
    (∀ ly lm ys, (ly = "" ∨ lm = "") →
      (∃ y ∈ ys, y.find "p" "info-title" = none ∨
        (y.find_all "li" "asociada-item").isEmpty = true) →
      ∃ e, processYears ly lm ys = Except.error e) := by
  refine ⟨?_, ?_, ?_, ?_, ?_⟩
  · intro soup ly lm store h
    simp only [get_data, get_data_links, h]
  · intro soup mainEl ly lm store h1 h2
    simp only [get_data, get_data_links, h1, h2, List.isEmpty_nil, if_true]
  · intro ly lm y rest h
    exact processYears_cons_no_title _ _ _ _ h
  · intro ly lm y rest t h hm
    exact processYears_cons_no_months _ _ _ _ _ h hm
  · intro ly lm ys h hex
    exact processYears_defect_error ly lm h ys hex

/-- C5 witness: each defect shape raised on a concrete document: missing
container, container with no year children, a headless year, a year with a
title but no months, and a defective year after a healthy one under the
empty checkpoint. -/
theorem structural_defects_fatal_witness :
    get_data docNoContainer "" "" (some [recA]) =
      Except.error "Main document list container not found." ∧
    get_data docNoYears "2025" "02" none =
      Except.error "No year elements found." ∧
    processYears "2025" "02" [yearNoTitle] =
      Except.error "Year title not found." ∧
    processYears "2025" "02" [yearNoMonths] =
      Except.error ("No months found for year " ++ (pTitle "2023").get_text ++ ".") ∧
    (∃ e, processYears "" ""
      [yearLi "2025" [monthLi "03" "/egob/03.zip"], yearNoMonths] =
        Except.error e) :=
  ⟨structural_defects_fatal.1 docNoContainer "" "" (some [recA]) rfl,
   structural_defects_fatal.2.1 docNoYears (mainUl [Elem.mk "div" [] [] "" []])
     "2025" "02" none rfl rfl,
   structural_defects_fatal.2.2.1 "2025" "02" yearNoTitle [] rfl,
   structural_defects_fatal.2.2.2.1 "2025" "02" yearNoMonths [] (pTitle "2023") rfl rfl,
   structural_defects_fatal.2.2.2.2 "" ""
     [yearLi "2025" [monthLi "03" "/egob/03.zip"], yearNoMonths] (Or.inl rfl)
     ⟨yearNoMonths, List.Mem.tail _ (List.Mem.head _), Or.inr rfl⟩⟩

/-- C6: a month entry that has a title but no resolvable ZIP link — no
nested link container, no ZIP anchor in it, or an anchor without an href
attribute, all the cases monthHref returns none for — contributes no
record and leaves the processing of the remaining entries (and hence the
following years, which only see the resulting pair) unchanged, provided
the entry is not the checkpoint entry. The last three conjuncts exhibit
the three defect shapes. -/
theorem soft_skip_month (yv ly lm : String) (m : Elem) (rest : List Elem)
    (t : Elem) (htitle : m.find "p" "info-title" = some t)
    (hstop : (ly != "" && lm != "" && yv == ly && t.get_text == lm) = false)
    (hlink : monthHref m = none) :
    processMonths yv ly lm (m :: rest) = processMonths yv ly lm rest ∧
    monthHref monthNoContainer = none ∧
    monthHref monthNoAnchor = none ∧
    monthHref monthNoHref = none :=
  ⟨processMonths_cons_skip _ _ _ _ _ _ htitle hstop hlink, rfl, rfl, rfl⟩

/-- C6 witness: a titled month without a link container is skipped and the
following month is still processed, under a non-matching checkpoint. -/
theorem soft_skip_month_witness :
    processMonths "2025" "2025" "02"
        [monthNoContainer, monthLi "01" "/egob/01.zip"] =
      processMonths "2025" "2025" "02" [monthLi "01" "/egob/01.zip"] :=
  (soft_skip_month "2025" "2025" "02" monthNoContainer
    [monthLi "01" "/egob/01.zip"] (pTitle "07") rfl rfl rfl).1

/-- C7: when the walk finds no new records, the save step reproduces the
previously stored sequence unchanged in content and order. -/
theorem merge_empty_new_identity (soup : Elem) (ly lm : String)
    (existing : List Record) (h : get_data_links soup ly lm = Except.ok []) :
    get_data soup ly lm (some existing) = Except.ok existing := by
  unfold get_data
  rw [h]
  show Except.ok (merge_links [] existing) = Except.ok existing
  unfold merge_links
  have hf : List.filter (fun item => !(([] : List Record).contains item)) existing
      = existing :=
    List.filter_eq_self.mpr (fun a _ => rfl)
  rw [List.nil_append, hf]

/-- C7 witness: a checkpoint matching the newest entry of doc1 yields no
new records, and the stored pair is saved back unchanged. -/
theorem merge_empty_new_identity_witness :
    get_data doc1 "2025" "03" (some [recA, recB]) = Except.ok [recA, recB] :=
  merge_empty_new_identity doc1 "2025" "03" [recA, recB] rfl

/-- C8: year entries are taken from the direct children of the listing
container only, while month entries are collected recursively: in doc8 the
month item buried two wrapper levels under year 2025 is still extracted,
while the structurally valid year 2024 item sitting one wrapper level
under the container is never enumerated — although the year loop run on it
directly (second conjunct) shows it would have produced its record, and it
does match the listing item signature (third conjunct). -/
theorem year_month_nesting_asymmetry :
    get_data_links doc8 "" "" =
      Except.ok [{ year := "2025", month := "03",
                   link := "https://datos.madrid.es/egob/03.zip" }] ∧
    processYears "" "" [yearLi "2024" [monthLi "12" "/egob/12.zip"]] =
      Except.ok [{ year := "2024", month := "12",
                   link := "https://datos.madrid.es/egob/12.zip" }] ∧
    matchesSel "li" "asociada-item"
      (yearLi "2024" [monthLi "12" "/egob/12.zip"]) = true :=
  ⟨rfl, rfl, rfl⟩

/-- C9: when the first stored record lacks the year key or the month key,
get_last_data substitutes the empty string for exactly the missing
component and does not fail; a first record carrying only a month key or
only a year key yields a checkpoint with exactly that component filled. -/
theorem checkpoint_field_fallback :
    (∀ fields rest, fields.lookup "year" = none →
      get_last_data (some (some (JValue.jarr (JValue.jobj fields :: rest)))) =
        Except.ok (JValue.jstr "", jget fields "month")) ∧
    (∀ fields rest, fields.lookup "month" = none →
      get_last_data (some (some (JValue.jarr (JValue.jobj fields :: rest)))) =
        Except.ok (jget fields "year", JValue.jstr "")) ∧
    (∀ rest mv,
      get_last_data (some (some (JValue.jarr (JValue.jobj [("month", mv)] :: rest)))) =
        Except.ok (JValue.jstr "", mv)) ∧
    (∀ rest yv,
      get_last_data (some (some (JValue.jarr (JValue.jobj [("year", yv)] :: rest)))) =
        Except.ok (yv, JValue.jstr "")) := by
  refine ⟨?_, ?_, ?_, ?_⟩
  · intro fields rest h
    show Except.ok (jget fields "year", jget fields "month") = _
    simp only [jget, h]
  · intro fields rest h
    show Except.ok (jget fields "year", jget fields "month") = _
    simp only [jget, h]
  · intro rest mv
    rfl
  · intro rest yv
    rfl

/-- C9 witness: a first record with only a month key and one with only a
year key, each read back with the other component empty. -/
theorem checkpoint_field_fallback_witness :
    get_last_data (some (some (JValue.jarr
        [JValue.jobj [("month", JValue.jstr "12")]]))) =
      Except.ok (JValue.jstr "", jget [("month", JValue.jstr "12")] "month") ∧
    get_last_data (some (some (JValue.jarr
        [JValue.jobj [("year", JValue.jstr "2024")]]))) =
      Except.ok (jget [("year", JValue.jstr "2024")] "year", JValue.jstr "") :=
  ⟨checkpoint_field_fallback.1 [("month", JValue.jstr "12")] [] rfl,
   checkpoint_field_fallback.2.1 [("year", JValue.jstr "2024")] [] rfl⟩

/-- C10: the recursive month search under a year yields every descendant
matching the li listing-item signature, so nested link containers are
month candidates too; a candidate without a title element is dropped
without affecting the rest of the walk; consequently the records of a year
never outnumber its titled candidates. The concrete conjuncts exhibit a
link container appearing among the candidates of its own month item and
lacking a title. -/
theorem month_candidate_ambiguity :
    (∀ y e, e ∈ descendants y → matchesSel "li" "asociada-item" e = true →
      e ∈ y.find_all "li" "asociada-item") ∧
    (∀ yv ly lm m rest, m.find "p" "info-title" = none →
      processMonths yv ly lm (m :: rest) = processMonths yv ly lm rest) ∧
    (∀ yv ly lm ms, (processMonths yv ly lm ms).1.length ≤
      (ms.filter (fun m => (m.find "p" "info-title").isSome)).length) ∧
    linkLi "/egob/03.zip" ∈
      (monthLi "03" "/egob/03.zip").find_all "li" "asociada-item" ∧
    (linkLi "/egob/03.zip").find "p" "info-title" = none := by
  refine ⟨?_, ?_, ?_, ?_, rfl⟩
  · intro y e hmem hmatch
    exact List.mem_filter.mpr ⟨hmem, hmatch⟩
  · intro yv ly lm m rest h
    exact processMonths_cons_no_title _ _ _ _ _ h
  · intro yv ly lm ms
    induction ms with
    | nil => exact Nat.le_refl 0
    | cons m rest ih =>
      rw [List.filter_cons]
      cases hfind : m.find "p" "info-title" with
      | none =>
        rw [processMonths_cons_no_title _ _ _ _ _ hfind]
        simp only [hfind, Option.isSome_none, Bool.false_eq_true, if_false]
        exact ih
      | some t =>
        simp only [hfind, Option.isSome_some, if_true, List.length_cons]
        cases hc : (ly != "" && lm != "" && yv == ly && t.get_text == lm) with
        | true =>
          rw [processMonths_cons_stop _ _ _ _ _ _ hfind hc]
          exact Nat.zero_le _
        | false =>
          cases hl : monthHref m with
          | none =>
            rw [processMonths_cons_skip _ _ _ _ _ _ hfind hc hl]
            exact Nat.le_succ_of_le ih
          | some href =>
            rw [processMonths_cons_rec _ _ _ _ _ _ _ hfind hc hl]
            exact Nat.succ_le_succ ih
  · have hfa : (monthLi "03" "/egob/03.zip").find_all "li" "asociada-item" =
        [linkLi "/egob/03.zip"] := rfl
    rw [hfa]
    exact List.Mem.head _

/-- C10 witness: the link container of a concrete month is itself a month
candidate, and as a candidate it contributes nothing to the month loop. -/
theorem month_candidate_ambiguity_witness :
    linkLi "/egob/02.zip" ∈
      (monthLi "02" "/egob/02.zip").find_all "li" "asociada-item" ∧
    processMonths "2025" "" "" [linkLi "/egob/02.zip"] =
      processMonths "2025" "" "" [] :=
  ⟨month_candidate_ambiguity.1 (monthLi "02" "/egob/02.zip")
      (linkLi "/egob/02.zip")
      (by rw [show descendants (monthLi "02" "/egob/02.zip") =
          [pTitle "02", Elem.mk "ul" [] [] "" [linkLi "/egob/02.zip"],
           linkLi "/egob/02.zip", zipAnchor "/egob/02.zip"] from rfl]
          exact List.Mem.tail _ (List.Mem.tail _ (List.Mem.head _)))
      rfl,
   month_candidate_ambiguity.2.1 "2025" "" "" (linkLi "/egob/02.zip") [] rfl⟩

/-- C6 counterexample: a month entry with a title but no link container is
in the scope of the claim, yet when its labels match the checkpoint the
early-stop check of line 114 fires before the link lookup of line 119, so
the subsequent month entry is not processed: the loop result differs from
the continuation on the rest of the list and the stop flag is set. -/
theorem soft_skip_stop_counterexample :
    processMonths "2025" "2025" "07"
        [monthNoContainer, monthLi "01" "/egob/01.zip"] = ([], true) ∧
    processMonths "2025" "2025" "07" [monthLi "01" "/egob/01.zip"] =
      ([{ year := "2025", month := "01",
          link := "https://datos.madrid.es/egob/01.zip" }], false) :=
  ⟨rfl, rfl⟩

/-- C5 counterexample: docShadowedDefect contains a year-level structural
defect — its second year entry has no title element (third conjunct) — yet
with checkpoint (2025, 02) the early stop fires in the first year before
the defective year is examined: get_data raises no error, returns the
merged sequence, and the saved contents differ from the prior store, so
the record file is modified. -/
theorem structural_defect_shadowed :
    get_data docShadowedDefect "2025" "02" (some [recC]) =
      Except.ok [{ year := "2025", month := "03",
                   link := "https://datos.madrid.es/egob/03.zip" }, recC] ∧
    ({ year := "2025", month := "03",
       link := "https://datos.madrid.es/egob/03.zip" } : Record) ≠ recC ∧
    yearNoTitle.find "p" "info-title" = none :=
  ⟨rfl, by decide, rfl⟩
